import Mathlib

/-!
Verification of the GNSS SV-model core (gnss_lib_py/utils/sv_models.py) and of
the DOP metrics layer against its natural-language specification.

The Python source is shallowly embedded: double-precision floats are modelled
as real numbers, numpy column arrays as lists of reals, and fallible code
(a Python raise, or a failed assert) as Except-valued functions.  NaN-producing
code paths of the DOP layer are modelled with Option values, none standing for
the IEEE not-a-number value.
-/

open scoped Classical

noncomputable section

/-- Modelled from the spec: gravitational parameter of Earth (WGS-84 value).
The module gnss_lib_py.utils.constants is not part of the sources under
review, only its use sites are. -/
def MU_EARTH : ℝ := 3.986005e14

/-- Modelled from the spec: rotation rate of Earth in rad/s (WGS-84 value).
The module gnss_lib_py.utils.constants is not part of the sources under
review, only its use sites are. -/
def OMEGA_E_DOT : ℝ := 7.2921151467e-5

/-- Modelled from the spec: speed of light in m/s. The module
gnss_lib_py.utils.constants is not part of the sources under review. -/
def C : ℝ := 299792458

/-- Modelled from the spec: nominal signal transit time in seconds. The module
gnss_lib_py.utils.constants is not part of the sources under review. -/
def T_TRANS : ℝ := 70e-3

/-- Broadcast ephemeris record for one satellite, with the fields that
find_sv_states and _compute_eccentric_anomaly read from the ephem NavData
table in sv_models.py. -/
structure EphemRecord where
  sv_id : ℕ
  C_is : ℝ
  C_ic : ℝ
  C_rs : ℝ
  C_rc : ℝ
  C_uc : ℝ
  C_us : ℝ
  deltaN : ℝ
  e : ℝ
  omega : ℝ
  Omega_0 : ℝ
  OmegaDot : ℝ
  sqrtA : ℝ
  gps_week : ℤ
  t_oe : ℝ
  i_0 : ℝ
  IDOT : ℝ
  M_0 : ℝ

/-- Week-rollover correction
(np.mod(gps_week,1024) - np.mod(ephem.gps_week,1024))*604800.
shared by find_sv_states and _compute_eccentric_anomaly.  Int.emod with the
positive modulus 1024 agrees with np.mod. -/
def gpsweek_diff (gps_week : ℤ) (ephem_week : ℤ) : ℝ :=
  ((gps_week % 1024 - ephem_week % 1024 : ℤ) : ℝ) * 604800

/-- Elapsed time delta_t = gps_tow - ephem.t_oe + gpsweek_diff since the
ephemeris reference epoch, including the week-rollover correction. -/
def delta_t (gps_week : ℤ) (gps_tow : ℝ) (r : EphemRecord) : ℝ :=
  gps_tow - r.t_oe + gpsweek_diff gps_week r.gps_week

/-- Mean angular motion sqrt_mu_a = np.sqrt(consts.MU_EARTH) * sqrt_sma**-3. -/
def sqrt_mu_a (r : EphemRecord) : ℝ :=
  Real.sqrt MU_EARTH * r.sqrtA ^ (-3 : ℤ)

/-- Corrected mean anomaly
mean_anom = mean_anom_0 + (sqrt_mu_a * delta_t) + delta_n * delta_t
computed in _compute_eccentric_anomaly. -/
def mean_anom (gps_week : ℤ) (gps_tow : ℝ) (r : EphemRecord) : ℝ :=
  r.M_0 + sqrt_mu_a r * delta_t gps_week gps_tow r + r.deltaN * delta_t gps_week gps_tow r

/-- Newton-Raphson correction computed by one iteration of the loop body of
_compute_eccentric_anomaly:
fun = mean_anom - ecc_anom + ecc*np.sin(ecc_anom),
df = ecc*np.cos(ecc_anom) - 1., delta_ecc_anom = -fun / df. -/
def newtonDelta (M e E : ℝ) : ℝ :=
  -(M - E + e * Real.sin E) / (e * Real.cos E - 1)

/-- State of the Newton-Raphson loop of _compute_eccentric_anomaly after n
iterations, starting from ecc_anom = mean_anom.  The first component is the
iterate ecc_anom, the second the last computed correction delta_ecc_anom
(meaningful once at least one iteration has run, as in the source where the
loop always executes max_iter iterations before delta_ecc_anom is read). -/
def keplerLoop (M e : ℝ) : ℕ → ℝ × ℝ
  | 0 => (M, 0)
  | n + 1 =>
      let E := (keplerLoop M e n).1
      (E + newtonDelta M e E, newtonDelta M e E)

/-- Embedding of _compute_eccentric_anomaly(gps_week, gps_tow, ephem, tol, max_iter).
After the fixed max_iter-iteration Newton-Raphson pass, the source executes
raise RuntimeWarning(...) under the condition np.any(delta_ecc_anom > tol);
the raise aborts the call with an exception, modelled as Except.error, and
only otherwise is the vector of final iterates returned. -/
def compute_eccentric_anomaly (gps_week : ℤ) (gps_tow : ℝ) (ephem : List EphemRecord)
    (tol : ℝ) (max_iter : ℕ) : Except String (List ℝ) :=
  if ∃ r ∈ ephem, (keplerLoop (mean_anom gps_week gps_tow r) r.e max_iter).2 > tol then
    Except.error "Eccentric Anomaly may not have converged"
  else
    Except.ok (ephem.map fun r => (keplerLoop (mean_anom gps_week gps_tow r) r.e max_iter).1)

/-- Newton-Raphson update in the form stated by the specification:
E ← E − f(E)/f′(E) with f(E) = M − E + e·sin(E) and f′(E) = e·cos(E) − 1. -/
def keplerSpecStep (M e : ℝ) (E : ℝ) : ℝ :=
  E - (M - E + e * Real.sin E) / (e * Real.cos E - 1)

/-- Conversion np.deg2rad. -/
def deg2rad (x : ℝ) : ℝ := x * (Real.pi / 180)

/-- Embedding of the two-argument arctangent np.arctan2(y, x), via the
argument of the complex number x + y i. -/
def atan2 (y x : ℝ) : ℝ := Complex.arg (x + y * Complex.I)

/-- True anomaly computed by find_sv_states from eccentricity and eccentric
anomaly:
e_cos_e = 1 - ecc*cos_e, sin_nu = np.sqrt(1 - ecc**2) * (sin_e/e_cos_e),
cos_nu = (cos_e-ecc) / e_cos_e, nu_rad = np.arctan2(sin_nu, cos_nu). -/
def nu_rad (e E : ℝ) : ℝ :=
  atan2 (Real.sqrt (1 - e ^ 2) * (Real.sin E / (1 - e * Real.cos E)))
    ((Real.cos E - e) / (1 - e * Real.cos E))

/-- State of the fixed five-iteration argument-of-latitude loop of
find_sv_states after n iterations.  The components are
(phi, cos_to_phi, sin_to_phi); each iteration executes
cos_to_phi = np.cos(2.*phi), sin_to_phi = np.sin(2.*phi),
phi = phi_0 + (c_uc * cos_to_phi + c_us * sin_to_phi).
The cos_to_phi and sin_to_phi components are those last assigned inside the
loop, hence computed from the phi of the previous iteration; their initial
values are placeholders never read by the source, which always runs the loop
five times. -/
def phiLoop (phi_0 c_uc c_us : ℝ) : ℕ → ℝ × ℝ × ℝ
  | 0 => (phi_0, 1, 0)
  | n + 1 =>
      let s := phiLoop phi_0 c_uc c_us n
      let cos_to_phi := Real.cos (2 * s.1)
      let sin_to_phi := Real.sin (2 * s.1)
      (phi_0 + (c_uc * cos_to_phi + c_us * sin_to_phi), cos_to_phi, sin_to_phi)

/-- Argument-of-latitude update in the form stated by the specification:
phi := phi_0 + C_uc·cos(2·phi_prev) + C_us·sin(2·phi_prev). -/
def phiSpecStep (phi_0 c_uc c_us : ℝ) (phi : ℝ) : ℝ :=
  phi_0 + c_uc * Real.cos (2 * phi) + c_us * Real.sin (2 * phi)

/-- Eccentric anomaly used by find_sv_states for one record: the result of the
fixed ten-iteration Newton-Raphson pass of _compute_eccentric_anomaly. -/
def ecc_anom_sv (gps_week : ℤ) (gps_tow : ℝ) (r : EphemRecord) : ℝ :=
  (keplerLoop (mean_anom gps_week gps_tow r) r.e 10).1

/-- Quantity e_cos_e = (1 - ecc*cos_e) of find_sv_states. -/
def e_cos_e_sv (gps_week : ℤ) (gps_tow : ℝ) (r : EphemRecord) : ℝ :=
  1 - r.e * Real.cos (ecc_anom_sv gps_week gps_tow r)

/-- Initial argument of latitude phi_0 = nu_rad + omega of find_sv_states. -/
def phi_0_sv (gps_week : ℤ) (gps_tow : ℝ) (r : EphemRecord) : ℝ :=
  nu_rad r.e (ecc_anom_sv gps_week gps_tow r) + r.omega

/-- State (phi, cos_to_phi, sin_to_phi) after the five-iteration loop of
find_sv_states. -/
def phi_state_sv (gps_week : ℤ) (gps_tow : ℝ) (r : EphemRecord) : ℝ × ℝ × ℝ :=
  phiLoop (phi_0_sv gps_week gps_tow r) r.C_uc r.C_us 5

/-- Corrected longitude of the ascending node computed by find_sv_states:
omega = omega_0 - (consts.OMEGA_E_DOT*(gps_tow + gpsweek_diff)) + omega_corr
with omega_corr = ephem.OmegaDot * delta_t. -/
def node_longitude (gps_week : ℤ) (gps_tow : ℝ) (r : EphemRecord) : ℝ :=
  r.Omega_0 - OMEGA_E_DOT * (gps_tow + gpsweek_diff gps_week r.gps_week)
    + r.OmegaDot * delta_t gps_week gps_tow r

/-- Longitude of the ascending node in the form stated by the claim under
review: Omega_0 minus the rotation rate of Earth times the rollover-adjusted
elapsed time since the ephemeris reference, plus the OmegaDot rate term. -/
def node_longitude_claim (gps_week : ℤ) (gps_tow : ℝ) (r : EphemRecord) : ℝ :=
  r.Omega_0 - OMEGA_E_DOT * delta_t gps_week gps_tow r
    + r.OmegaDot * delta_t gps_week gps_tow r

/-- Corrected orbital radius of find_sv_states:
r_corr = c_rc * cos_to_phi + c_rs * sin_to_phi,
orb_radius = sma*e_cos_e + r_corr with sma = sqrt_sma**2. -/
def orb_radius_sv (gps_week : ℤ) (gps_tow : ℝ) (r : EphemRecord) : ℝ :=
  r.sqrtA ^ 2 * e_cos_e_sv gps_week gps_tow r
    + (r.C_rc * (phi_state_sv gps_week gps_tow r).2.1
       + r.C_rs * (phi_state_sv gps_week gps_tow r).2.2)

/-- Velocity intermediate delta_e = (sqrt_mu_a + delta_n) / e_cos_e. -/
def delta_e_sv (gps_week : ℤ) (gps_tow : ℝ) (r : EphemRecord) : ℝ :=
  (sqrt_mu_a r + r.deltaN) / e_cos_e_sv gps_week gps_tow r

/-- Velocity intermediate dphi = np.sqrt(1 - ecc**2)*delta_e / e_cos_e. -/
def dphi_sv (gps_week : ℤ) (gps_tow : ℝ) (r : EphemRecord) : ℝ :=
  Real.sqrt (1 - r.e ^ 2) * delta_e_sv gps_week gps_tow r / e_cos_e_sv gps_week gps_tow r

/-- Velocity intermediate
delta_r = (sma * ecc * delta_e * sin_e) + 2*(c_rs*cos_to_phi - c_rc*sin_to_phi)*dphi. -/
def delta_r_sv (gps_week : ℤ) (gps_tow : ℝ) (r : EphemRecord) : ℝ :=
  r.sqrtA ^ 2 * r.e * delta_e_sv gps_week gps_tow r
      * Real.sin (ecc_anom_sv gps_week gps_tow r)
    + 2 * (r.C_rs * (phi_state_sv gps_week gps_tow r).2.1
           - r.C_rc * (phi_state_sv gps_week gps_tow r).2.2)
      * dphi_sv gps_week gps_tow r

/-- Corrected inclination of find_sv_states:
i_corr = c_ic*cos_to_phi + c_is*sin_to_phi + ephem.IDOT*delta_t,
incl = ephem.i_0 + i_corr. -/
def incl_sv (gps_week : ℤ) (gps_tow : ℝ) (r : EphemRecord) : ℝ :=
  r.i_0 + (r.C_ic * (phi_state_sv gps_week gps_tow r).2.1
    + r.C_is * (phi_state_sv gps_week gps_tow r).2.2
    + r.IDOT * delta_t gps_week gps_tow r)

/-- Velocity intermediate
delta_i = 2*(c_is*cos_to_phi - c_ic*sin_to_phi)*dphi + ephem.IDOT. -/
def delta_i_sv (gps_week : ℤ) (gps_tow : ℝ) (r : EphemRecord) : ℝ :=
  2 * (r.C_is * (phi_state_sv gps_week gps_tow r).2.1
       - r.C_ic * (phi_state_sv gps_week gps_tow r).2.2)
    * dphi_sv gps_week gps_tow r + r.IDOT

/-- In-plane coordinate x_plane = orb_radius*np.cos(phi). -/
def x_plane_sv (gps_week : ℤ) (gps_tow : ℝ) (r : EphemRecord) : ℝ :=
  orb_radius_sv gps_week gps_tow r * Real.cos (phi_state_sv gps_week gps_tow r).1

/-- In-plane coordinate y_plane = orb_radius*np.sin(phi). -/
def y_plane_sv (gps_week : ℤ) (gps_tow : ℝ) (r : EphemRecord) : ℝ :=
  orb_radius_sv gps_week gps_tow r * Real.sin (phi_state_sv gps_week gps_tow r).1

/-- Velocity intermediate delta_u = (1 + 2*(c_us * cos_to_phi - c_uc*sin_to_phi))*dphi. -/
def delta_u_sv (gps_week : ℤ) (gps_tow : ℝ) (r : EphemRecord) : ℝ :=
  (1 + 2 * (r.C_us * (phi_state_sv gps_week gps_tow r).2.1
            - r.C_uc * (phi_state_sv gps_week gps_tow r).2.2))
    * dphi_sv gps_week gps_tow r

/-- Velocity intermediate dxp = delta_r*np.cos(phi) - orb_radius*np.sin(phi)*delta_u. -/
def dxp_sv (gps_week : ℤ) (gps_tow : ℝ) (r : EphemRecord) : ℝ :=
  delta_r_sv gps_week gps_tow r * Real.cos (phi_state_sv gps_week gps_tow r).1
    - orb_radius_sv gps_week gps_tow r * Real.sin (phi_state_sv gps_week gps_tow r).1
      * delta_u_sv gps_week gps_tow r

/-- Velocity intermediate dyp = delta_r*np.sin(phi) + orb_radius*np.cos(phi)*delta_u. -/
def dyp_sv (gps_week : ℤ) (gps_tow : ℝ) (r : EphemRecord) : ℝ :=
  delta_r_sv gps_week gps_tow r * Real.sin (phi_state_sv gps_week gps_tow r).1
    + orb_radius_sv gps_week gps_tow r * Real.cos (phi_state_sv gps_week gps_tow r).1
      * delta_u_sv gps_week gps_tow r

/-- ECEF x position x_sv_m = x_plane*cos_omega - y_plane*cos_i*sin_omega. -/
def x_sv_m (gps_week : ℤ) (gps_tow : ℝ) (r : EphemRecord) : ℝ :=
  x_plane_sv gps_week gps_tow r * Real.cos (node_longitude gps_week gps_tow r)
    - y_plane_sv gps_week gps_tow r * Real.cos (incl_sv gps_week gps_tow r)
      * Real.sin (node_longitude gps_week gps_tow r)

/-- ECEF y position y_sv_m = x_plane*sin_omega + y_plane*cos_i*cos_omega. -/
def y_sv_m (gps_week : ℤ) (gps_tow : ℝ) (r : EphemRecord) : ℝ :=
  x_plane_sv gps_week gps_tow r * Real.sin (node_longitude gps_week gps_tow r)
    + y_plane_sv gps_week gps_tow r * Real.cos (incl_sv gps_week gps_tow r)
      * Real.cos (node_longitude gps_week gps_tow r)

/-- ECEF z position z_sv_m = y_plane*sin_i. -/
def z_sv_m (gps_week : ℤ) (gps_tow : ℝ) (r : EphemRecord) : ℝ :=
  y_plane_sv gps_week gps_tow r * Real.sin (incl_sv gps_week gps_tow r)

/-- Rate omega_dot = ephem.OmegaDot - consts.OMEGA_E_DOT. -/
def omega_dot_sv (r : EphemRecord) : ℝ :=
  r.OmegaDot - OMEGA_E_DOT

/-- ECEF x velocity vx_sv_mps of find_sv_states. -/
def vx_sv_mps (gps_week : ℤ) (gps_tow : ℝ) (r : EphemRecord) : ℝ :=
  dxp_sv gps_week gps_tow r * Real.cos (node_longitude gps_week gps_tow r)
    - dyp_sv gps_week gps_tow r * Real.cos (incl_sv gps_week gps_tow r)
      * Real.sin (node_longitude gps_week gps_tow r)
    + y_plane_sv gps_week gps_tow r * Real.sin (node_longitude gps_week gps_tow r)
      * Real.sin (incl_sv gps_week gps_tow r) * delta_i_sv gps_week gps_tow r
    - (x_plane_sv gps_week gps_tow r * Real.sin (node_longitude gps_week gps_tow r)
       + y_plane_sv gps_week gps_tow r * Real.cos (incl_sv gps_week gps_tow r)
         * Real.cos (node_longitude gps_week gps_tow r)) * omega_dot_sv r

/-- ECEF y velocity vy_sv_mps of find_sv_states. -/
def vy_sv_mps (gps_week : ℤ) (gps_tow : ℝ) (r : EphemRecord) : ℝ :=
  dxp_sv gps_week gps_tow r * Real.sin (node_longitude gps_week gps_tow r)
    + dyp_sv gps_week gps_tow r * Real.cos (incl_sv gps_week gps_tow r)
      * Real.cos (node_longitude gps_week gps_tow r)
    - y_plane_sv gps_week gps_tow r * Real.sin (incl_sv gps_week gps_tow r)
      * Real.cos (node_longitude gps_week gps_tow r) * delta_i_sv gps_week gps_tow r
    + (x_plane_sv gps_week gps_tow r * Real.cos (node_longitude gps_week gps_tow r)
       - y_plane_sv gps_week gps_tow r * Real.cos (incl_sv gps_week gps_tow r)
         * Real.sin (node_longitude gps_week gps_tow r)) * omega_dot_sv r

/-- ECEF z velocity vz_sv_mps = dyp*sin_i + y_plane*cos_i*delta_i. -/
def vz_sv_mps (gps_week : ℤ) (gps_tow : ℝ) (r : EphemRecord) : ℝ :=
  dyp_sv gps_week gps_tow r * Real.sin (incl_sv gps_week gps_tow r)
    + y_plane_sv gps_week gps_tow r * Real.cos (incl_sv gps_week gps_tow r)
      * delta_i_sv gps_week gps_tow r

/-- Columnar satellite-state table produced by find_sv_states, the NavData
sv_posvel with one list entry per satellite. -/
structure SVPosvel where
  sv_id : List ℕ
  times : List ℝ
  x_sv_m : List ℝ
  y_sv_m : List ℝ
  z_sv_m : List ℝ
  vx_sv_mps : List ℝ
  vy_sv_mps : List ℝ
  vz_sv_mps : List ℝ

/-- Modelled from the spec: the external time converter mapping a millisecond
epoch counter to (GPS week, time-of-week seconds); the module
gnss_lib_py.utils.time_conversions is not part of the sources under review.
A GPS week has 604800 seconds. -/
def gps_millis_to_tow (gps_millis : ℝ) : ℤ × ℝ :=
  (⌊gps_millis / 604800000⌋, (gps_millis - (⌊gps_millis / 604800000⌋ : ℤ) * 604800000) / 1000)

/-- Embedding of find_sv_states(gps_millis, ephem).  The call to
_compute_eccentric_anomaly (with the default tolerance 1e-5 and ten
iterations) happens before any output column is produced, so its raise aborts
the whole call; otherwise the columnar output table is assembled from the
per-record quantities above. -/
def find_sv_states (gps_millis : ℝ) (ephem : List EphemRecord) : Except String SVPosvel :=
  let wt := gps_millis_to_tow gps_millis
  (compute_eccentric_anomaly wt.1 wt.2 ephem 1e-5 10).map fun _ =>
    { sv_id := ephem.map (·.sv_id)
      times := ephem.map fun _ => wt.2
      x_sv_m := ephem.map (x_sv_m wt.1 wt.2)
      y_sv_m := ephem.map (y_sv_m wt.1 wt.2)
      z_sv_m := ephem.map (z_sv_m wt.1 wt.2)
      vx_sv_mps := ephem.map (vx_sv_mps wt.1 wt.2)
      vy_sv_mps := ephem.map (vy_sv_mps wt.1 wt.2)
      vz_sv_mps := ephem.map (vz_sv_mps wt.1 wt.2) }

/-- Satellite ECEF positions of a sv_posvel table as a list of triples, as
extracted by _extract_pos_vel_arr. -/
def posvel_pos_list (pv : SVPosvel) : List (ℝ × ℝ × ℝ) :=
  pv.x_sv_m.zip (pv.y_sv_m.zip pv.z_sv_m)

/-- Embedding of _find_delxyz_range(sv_posvel, rx_ecef).  The call
np.reshape(rx_ecef, [3, 1]) raises ValueError when the receiver position does
not have exactly three components (the explicit size check on the following
line raises the same error class); on success the function returns the
per-satellite position differences and geometric ranges. -/
def find_delxyz_range (sv_posvel : SVPosvel) (rx_ecef : List ℝ) :
    Except String (List (ℝ × ℝ × ℝ) × List ℝ) :=
  if h : rx_ecef.length = 3 then
    let rx0 := rx_ecef.get ⟨0, by omega⟩
    let rx1 := rx_ecef.get ⟨1, by omega⟩
    let rx2 := rx_ecef.get ⟨2, by omega⟩
    let del_pos := (posvel_pos_list sv_posvel).map fun p =>
      (p.1 - rx0, p.2.1 - rx1, p.2.2 - rx2)
    let true_range := del_pos.map fun p =>
      Real.sqrt (p.1 ^ 2 + p.2.1 ^ 2 + p.2.2 ^ 2)
    Except.ok (del_pos, true_range)
  else
    Except.error "Position not 3D"

/-- Embedding of _find_sv_location(gps_millis, rx_ecef, ephem, sv_posvel) on
the code path where the caller supplies a precomputed sv_posvel table (the
branch taken when sv_posvel is not None, lines 321 and 331-342 of
sv_models.py).  On that path the source computes ranges and transit times,
then executes
sv_posvel[x_sv_m] = sv_posvel[x_sv_m] + del_x and
sv_posvel[y_sv_m] = sv_posvel[y_sv_m] + del_y
with del_x = consts.OMEGA_E_DOT*sv_posvel[x_sv_m] * t_corr (and likewise y),
which writes into the very NavData object the caller passed in.  The returned
SVPosvel is therefore the post-call state of the caller-supplied table. -/
def find_sv_location_posvel (rx_ecef : List ℝ) (sv_posvel : SVPosvel) :
    Except String (SVPosvel × List (ℝ × ℝ × ℝ) × List ℝ) :=
  (find_delxyz_range sv_posvel rx_ecef).bind fun dr =>
    let t_corr := dr.2.map (· / C)
    let del_x := List.zipWith (fun x t => OMEGA_E_DOT * x * t) sv_posvel.x_sv_m t_corr
    let del_y := List.zipWith (fun y t => OMEGA_E_DOT * y * t) sv_posvel.y_sv_m t_corr
    Except.ok
      ({ sv_posvel with
          x_sv_m := List.zipWith (· + ·) sv_posvel.x_sv_m del_x
          y_sv_m := List.zipWith (· + ·) sv_posvel.y_sv_m del_y },
        dr.1, dr.2)

/-- Embedding of _find_visible_svs(gps_millis, rx_ecef, ephem, sv_posvel, el_mask).
The function ecef_to_el_az of gnss_lib_py.utils.coordinates is not part of the
sources under review and is passed as the parameter el_az, returning one
(elevation, azimuth) pair in degrees per satellite.  When both optional inputs
are absent the source calls find_sv_states with ephem = None, which fails on
its first subscript of None (a TypeError); when only ephem is absent the
assert on line 282 fails; a receiver position without exactly three components
makes np.reshape(rx_ecef, [3, 1]) raise ValueError.  On success the ephemeris
is trimmed to the satellites whose estimated elevation exceeds the mask. -/
def find_visible_svs (el_az : List ℝ → List (ℝ × ℝ × ℝ) → List (ℝ × ℝ))
    (gps_millis : ℝ) (rx_ecef : List ℝ) (ephem : Option (List EphemRecord))
    (sv_posvel : Option SVPosvel) (el_mask : ℝ) : Except String (List EphemRecord) :=
  (match sv_posvel, ephem with
    | none, none => Except.error "TypeError: NoneType object is not subscriptable"
    | none, some eph => find_sv_states (gps_millis - 1000 * T_TRANS) eph
    | some _, none => Except.error "Must provide ephemeris or positions to find visible satellites"
    | some pv, some _ => Except.ok pv).bind fun approx_posvel =>
  if rx_ecef.length = 3 then
    match ephem with
    | some eph =>
        let approx_el_az := el_az rx_ecef (posvel_pos_list approx_posvel)
        Except.ok (((eph.zip approx_el_az).filter
          fun (p : EphemRecord × ℝ × ℝ) => el_mask < p.2.1).map
            fun (p : EphemRecord × ℝ × ℝ) => p.1)
    | none => Except.error "AttributeError: NoneType object has no attribute copy"
  else
    Except.error "cannot reshape rx_ecef into shape (3, 1)"

/-- Embedding of svs_from_el_az(elaz_deg).  The input is the 2xN array whose
first row holds elevations and second row azimuths, modelled as a list of
rows; the assert on its shape fails for any other number of rows.  The output
3xN array is modelled column-major, one (x, y, z) triple per satellite:
unit_vect = (sin(az)cos(el), cos(az)cos(el), sin(el)) scaled by 20200000. -/
def svs_from_el_az (elaz_deg : List (List ℝ)) : Except String (List (ℝ × ℝ × ℝ)) :=
  match elaz_deg with
  | [el_deg, az_deg] =>
      Except.ok ((el_deg.zip az_deg).map fun p =>
        (20200000 * (Real.sin (deg2rad p.2) * Real.cos (deg2rad p.1)),
         20200000 * (Real.cos (deg2rad p.2) * Real.cos (deg2rad p.1)),
         20200000 * Real.sin (deg2rad p.1)))
  | _ => Except.error "elaz_deg should be a 2xN array"

/-- Modelled from the spec: one row of the ENU-plus-clock design matrix of the
GeometryEngine, east = cos(el)·sin(az), north = cos(el)·cos(az), up = sin(el),
and a constant one for the receiver clock-bias unknown; angles are converted
to radians internally.  The module gnss_lib_py.utils.metrics is not part of
the sources under review, only its tests are. -/
def enut_row (el az : ℝ) : Fin 4 → ℝ :=
  ![Real.cos (deg2rad el) * Real.sin (deg2rad az),
    Real.cos (deg2rad el) * Real.cos (deg2rad az),
    Real.sin (deg2rad el),
    1]

/-- Modelled from the spec: the Nx4 design matrix of calculate_enut_matrix,
one ENU-plus-clock row per satellite, from (elevation, azimuth) pairs in
degrees. -/
def calculate_enut_matrix (sats : List (ℝ × ℝ)) :
    Matrix (Fin sats.length) (Fin 4) ℝ :=
  Matrix.of fun i j => enut_row (sats.get i).1 (sats.get i).2 j

/-- Result dictionary of calculate_dop: the symmetric 4x4 DOP matrix over the
axes (East, North, Up, Time) and the five scalar summaries.  A none entry
models the IEEE not-a-number value. -/
structure DopResult where
  dop_matrix : Fin 4 → Fin 4 → Option ℝ
  GDOP : Option ℝ
  HDOP : Option ℝ
  VDOP : Option ℝ
  PDOP : Option ℝ
  TDOP : Option ℝ

/-- DOP result in which every matrix entry and every scalar is the IEEE
not-a-number value. -/
def dop_nan : DopResult :=
  { dop_matrix := fun _ _ => none
    GDOP := none, HDOP := none, VDOP := none, PDOP := none, TDOP := none }

/-- Modelled from the spec: calculate_dop builds the design matrix G, computes
dop_matrix = inverse(Gᵗ·G) and the scalar summaries
HDOP=√(dop_ee+dop_nn), VDOP=√dop_uu, PDOP=√(dop_ee+dop_nn+dop_uu),
GDOP=√(dop_ee+dop_nn+dop_uu+dop_tt), TDOP=√dop_tt; when Gᵗ·G is singular
(which numpy reports by raising LinAlgError, caught by the implementation)
every entry and every scalar is set to the not-a-number value instead and no
exception escapes.  The module gnss_lib_py.utils.metrics is not part of the
sources under review, only its tests are. -/
def calculate_dop (sats : List (ℝ × ℝ)) : DopResult :=
  let G := calculate_enut_matrix sats
  let gram := G.transpose * G
  if gram.det = 0 then dop_nan
  else
    let m := gram⁻¹
    { dop_matrix := fun i j => some (m i j)
      GDOP := some (Real.sqrt (m 0 0 + m 1 1 + m 2 2 + m 3 3))
      HDOP := some (Real.sqrt (m 0 0 + m 1 1))
      VDOP := some (Real.sqrt (m 2 2))
      PDOP := some (Real.sqrt (m 0 0 + m 1 1 + m 2 2))
      TDOP := some (Real.sqrt (m 3 3)) }

/-- Selection flags of get_dop, one Bool per selectable output. -/
structure WhichDop where
  GDOP : Bool
  HDOP : Bool
  VDOP : Bool
  PDOP : Bool
  TDOP : Bool
  dop_matrix : Bool

/-- Label order of the ten independent entries of the symmetric DOP matrix,
with the (row, column) index of each. -/
def dop_matrix_labels : List (String × Fin 4 × Fin 4) :=
  [("dop_ee", 0, 0), ("dop_en", 0, 1), ("dop_eu", 0, 2), ("dop_et", 0, 3),
   ("dop_nn", 1, 1), ("dop_nu", 1, 2), ("dop_nt", 1, 3),
   ("dop_uu", 2, 2), ("dop_ut", 2, 3), ("dop_tt", 3, 3)]

/-- Fields of one output row of get_dop, as requested by the selection. -/
def select_row (which_dop : WhichDop) (d : DopResult) : List (String × Option ℝ) :=
  (if which_dop.GDOP then [("GDOP", d.GDOP)] else [])
    ++ (if which_dop.HDOP then [("HDOP", d.HDOP)] else [])
    ++ (if which_dop.VDOP then [("VDOP", d.VDOP)] else [])
    ++ (if which_dop.PDOP then [("PDOP", d.PDOP)] else [])
    ++ (if which_dop.TDOP then [("TDOP", d.TDOP)] else [])
    ++ (if which_dop.dop_matrix then
          dop_matrix_labels.map fun l => (l.1, d.dop_matrix l.2.1 l.2.2)
        else [])

/-- Insertion of one epoch key into an ascending list of epoch keys. -/
def insertSorted (x : ℤ) : List ℤ → List ℤ
  | [] => [x]
  | y :: ys => if x ≤ y then x :: y :: ys else y :: insertSorted x ys

/-- Ascending insertion sort of epoch keys. -/
def sortInts (l : List ℤ) : List ℤ :=
  l.foldr insertSorted []

/-- Modelled from the spec: get_dop(navdata, which_dop) computes one result
row per unique epoch of the multi-epoch table, rows ordered by ascending
epoch, each row holding the epoch key and the fields requested by the
selection.  The input table is columnar (gps_millis, el_sv_deg, az_sv_deg).
The caller-supplied selection is a Python dict whose post-call state is
returned alongside the result to make any mutation observable; the
specification demands it be returned exactly as supplied.  The module
gnss_lib_py.utils.metrics is not part of the sources under review, only its
tests are. -/
def get_dop (navdata : List (ℤ × ℝ × ℝ)) (which_dop : WhichDop) :
    List (ℤ × List (String × Option ℝ)) × WhichDop :=
  ((sortInts (navdata.map (·.1)).dedup).map fun t =>
      (t, select_row which_dop
            (calculate_dop ((navdata.filter fun p => p.1 = t).map fun p => (p.2.1, p.2.2)))),
    which_dop)

/-- Ephemeris record with all orbital parameters zero except a unit
semi-major-axis root; its corrected mean anomaly at week 0, time-of-week 0 is
0 and the Newton-Raphson corrections all vanish. -/
def r0 : EphemRecord :=
  { sv_id := 1
    C_is := 0, C_ic := 0, C_rs := 0, C_rc := 0, C_uc := 0, C_us := 0
    deltaN := 0, e := 0, omega := 0, Omega_0 := 0, OmegaDot := 0
    sqrtA := 1, gps_week := 0, t_oe := 0, i_0 := 0, IDOT := 0, M_0 := 0 }

/-- Ephemeris record equal to r0 except for a nonzero reference time t_oe. -/
def r1 : EphemRecord :=
  { r0 with t_oe := 1 }

/-- Satellite-state table with a single satellite at ECEF position (C, 0, 0),
one light-second from the origin, at rest. -/
def svC : SVPosvel :=
  { sv_id := [1], times := [0]
    x_sv_m := [C], y_sv_m := [0], z_sv_m := [0]
    vx_sv_mps := [0], vy_sv_mps := [0], vz_sv_mps := [0] }

/-- Satellite-state table with a single satellite at the ECEF origin, at
rest; the transit-time correction vanishes on it. -/
def sv0 : SVPosvel :=
  { sv_id := [1], times := [0]
    x_sv_m := [0], y_sv_m := [0], z_sv_m := [0]
    vx_sv_mps := [0], vy_sv_mps := [0], vz_sv_mps := [0] }

end

theorem keplerLoop_fst (M e : ℝ) (n : ℕ) :
    (keplerLoop M e (n + 1)).1
      = (keplerLoop M e n).1 + newtonDelta M e (keplerLoop M e n).1 :=
  rfl

theorem keplerLoop_eq_iterate (M e : ℝ) (n : ℕ) :
    (keplerLoop M e n).1 = (keplerSpecStep M e)^[n] M := by
  induction n with
  | zero => rfl
  | succ k ih =>
      rw [Function.iterate_succ_apply', keplerLoop_fst, ih, keplerSpecStep, newtonDelta,
        neg_div, ← sub_eq_add_neg]

theorem keplerLoop_zero (n : ℕ) : keplerLoop 0 0 n = (0, 0) := by
  induction n with
  | zero => rfl
  | succ k ih => simp [keplerLoop, ih, newtonDelta]

theorem mean_anom_r0 : mean_anom 0 0 r0 = 0 := by
  simp [mean_anom, r0, delta_t, gpsweek_diff, sqrt_mu_a]

/-- C1: the claim states that when the last Newton-Raphson correction exceeds
the tolerance for some satellite, the solver still returns the last iterate and
only signals a non-fatal warning.  The source instead executes
raise RuntimeWarning(...), aborting the call with an exception: at the
concrete input below (record r0, tolerance -1) the correction 0 exceeds the
tolerance, and the embedded solver yields an error rather than a value. -/
theorem kepler_nonconvergence_raises :
    compute_eccentric_anomaly 0 0 [r0] (-1) 10
      = Except.error "Eccentric Anomaly may not have converged" := by
  unfold compute_eccentric_anomaly
  rw [if_pos]
  refine ⟨r0, by simp, ?_⟩
  rw [mean_anom_r0, show r0.e = 0 from rfl, keplerLoop_zero]
  norm_num

/-- C6: whenever the eccentric-anomaly solver returns, the value for each
satellite is exactly max_iter Newton-Raphson iterations of the update
E ← E − f(E)/f′(E), f(E) = M − E + e·sin(E), f′(E) = e·cos(E) − 1, started
from the corrected mean anomaly M; the iteration count is the parameter
max_iter (default 10) and never depends on convergence. -/
theorem ecc_anom_fixed_newton_iterations (gps_week : ℤ) (gps_tow : ℝ)
    (ephem : List EphemRecord) (tol : ℝ) (max_iter : ℕ) (out : List ℝ)
    (h : compute_eccentric_anomaly gps_week gps_tow ephem tol max_iter = Except.ok out) :
    out = ephem.map fun r =>
      (keplerSpecStep (mean_anom gps_week gps_tow r) r.e)^[max_iter]
        (mean_anom gps_week gps_tow r) := by
  by_cases hc : ∃ r ∈ ephem,
      (keplerLoop (mean_anom gps_week gps_tow r) r.e max_iter).2 > tol
  · rw [compute_eccentric_anomaly, if_pos hc] at h
    exact absurd h (by simp)
  · rw [compute_eccentric_anomaly, if_neg hc] at h
    cases h
    simp only [keplerLoop_eq_iterate]

theorem ecc_anom_fixed_newton_iterations_witness :
    compute_eccentric_anomaly 0 0 [r0] 1 10 = Except.ok [(0 : ℝ)] ∧
    [(0 : ℝ)] = [r0].map fun r =>
      (keplerSpecStep (mean_anom 0 0 r) r.e)^[10] (mean_anom 0 0 r) := by
  have h : compute_eccentric_anomaly 0 0 [r0] 1 10 = Except.ok [(0 : ℝ)] := by
    rw [compute_eccentric_anomaly, if_neg]
    · simp [mean_anom_r0, show r0.e = 0 from rfl, keplerLoop_zero]
    · simp only [List.mem_singleton, exists_eq_left, mean_anom_r0,
        show r0.e = 0 from rfl, keplerLoop_zero]
      norm_num
  exact ⟨h, ecc_anom_fixed_newton_iterations 0 0 [r0] 1 10 [(0 : ℝ)] h⟩

theorem phiLoop_fst_eq_iterate (phi_0 c_uc c_us : ℝ) (n : ℕ) :
    (phiLoop phi_0 c_uc c_us n).1 = (phiSpecStep phi_0 c_uc c_us)^[n] phi_0 := by
  induction n with
  | zero => rfl
  | succ k ih =>
      rw [Function.iterate_succ_apply', ← ih]
      simp only [phiLoop, phiSpecStep, add_assoc]

/-- C7: the argument-of-latitude refinement of find_sv_states performs exactly
five iterations of phi := phi_0 + C_uc·cos(2·phi_prev) + C_us·sin(2·phi_prev),
with no convergence check and no early exit, for every input. -/
theorem phi_fixed_five_iterations (gps_week : ℤ) (gps_tow : ℝ) (r : EphemRecord) :
    (phi_state_sv gps_week gps_tow r).1
      = (phiSpecStep (phi_0_sv gps_week gps_tow r) r.C_uc r.C_us)^[5]
          (phi_0_sv gps_week gps_tow r) :=
  phiLoop_fst_eq_iterate _ _ _ 5

/-- C9: for every eccentricity in [0, 1) and every eccentric anomaly E, the
true anomaly computed by find_sv_states equals
atan2(√(1−e²)·sin E, cos E − e); the intermediate division by
e_cos_e = 1 − e·cos E is a positive rescaling that leaves the two-argument
arctangent unchanged. -/
theorem true_anomaly_atan2 (e E : ℝ) (h0 : 0 ≤ e) (h1 : e < 1) :
    nu_rad e E = atan2 (Real.sqrt (1 - e ^ 2) * Real.sin E) (Real.cos E - e) := by
  have hc : 0 < 1 - e * Real.cos E := by
    have hle : e * Real.cos E ≤ e * 1 :=
      mul_le_mul_of_nonneg_left (Real.cos_le_one E) h0
    rw [mul_one] at hle
    linarith
  have hinv : (0 : ℝ) < (1 - e * Real.cos E)⁻¹ := inv_pos.mpr hc
  unfold nu_rad atan2
  have key : (((Real.cos E - e) / (1 - e * Real.cos E) : ℝ) : ℂ)
      + ((Real.sqrt (1 - e ^ 2) * (Real.sin E / (1 - e * Real.cos E)) : ℝ) : ℂ) * Complex.I
      = (((1 - e * Real.cos E)⁻¹ : ℝ) : ℂ)
        * (((Real.cos E - e : ℝ) : ℂ)
           + ((Real.sqrt (1 - e ^ 2) * Real.sin E : ℝ) : ℂ) * Complex.I) := by
    push_cast
    ring
  rw [key, Complex.arg_real_mul _ hinv]

theorem true_anomaly_atan2_witness :
    nu_rad 0 0 = atan2 (Real.sqrt (1 - 0 ^ 2) * Real.sin 0) (Real.cos 0 - 0) :=
  true_anomaly_atan2 0 0 (le_refl 0) (by norm_num)

/-- C5 counterexample: the claim states that the corrected longitude of the
ascending node subtracts the rotation of Earth over the elapsed time
gps_tow − t_oe + rollover.  The source subtracts it over
gps_tow + rollover, the rollover-adjusted time since the beginning of the GPS
week; the two differ by OMEGA_E_DOT·t_oe, and at the record r1 (t_oe = 1,
all other parameters zero) at week 0, time-of-week 0 the code yields 0 while
the claimed formula yields OMEGA_E_DOT ≠ 0. -/
theorem node_longitude_ne_claim :
    node_longitude 0 0 r1 ≠ node_longitude_claim 0 0 r1 := by
  norm_num [node_longitude, node_longitude_claim, r1, r0, delta_t, gpsweek_diff,
    OMEGA_E_DOT]

/-- C5 amended: the corrected longitude of the ascending node equals Omega_0
minus the rotation rate of Earth times the rollover-adjusted time since the
beginning of the GPS week (gps_tow + 604800·(week mod 1024 − ephem week mod
1024)), plus OmegaDot times the elapsed time since the ephemeris reference;
equivalently, it differs from the formula stated in the claim by exactly
−OMEGA_E_DOT·t_oe. -/
theorem node_longitude_amended (gps_week : ℤ) (gps_tow : ℝ) (r : EphemRecord) :
    node_longitude gps_week gps_tow r
      = node_longitude_claim gps_week gps_tow r - OMEGA_E_DOT * r.t_oe := by
  unfold node_longitude node_longitude_claim delta_t
  ring

theorem zipWith_add_zipWith_self (f : ℝ → ℝ → ℝ) :
    ∀ (a b : List ℝ),
      List.zipWith (· + ·) a (List.zipWith f a b)
        = List.zipWith (fun x t => x + f x t) a b
  | [], _ => by simp
  | _ :: _, [] => by simp
  | x :: xs, y :: ys => by
      simp [List.zipWith, zipWith_add_zipWith_self f xs ys]

/-- C3 counterexample: the claim states that the range computation taking a
caller-supplied satellite-state collection leaves the ECEF positions of the
states unchanged.  For the single-satellite table svC at position (C, 0, 0)
and a receiver at the origin, the transit time is one second, and the call
returns the table with its x component changed to C + OMEGA_E_DOT·C — the
source writes this value into the very NavData object the caller passed. -/
theorem find_delxyz_range_cons (pv : SVPosvel) (a b c : ℝ) :
    find_delxyz_range pv [a, b, c] = Except.ok
      ((posvel_pos_list pv).map fun p => (p.1 - a, p.2.1 - b, p.2.2 - c),
       ((posvel_pos_list pv).map fun p => (p.1 - a, p.2.1 - b, p.2.2 - c)).map
         fun p => Real.sqrt (p.1 ^ 2 + p.2.1 ^ 2 + p.2.2 ^ 2)) := by
  unfold find_delxyz_range
  rw [dif_pos (show ([a, b, c] : List ℝ).length = 3 from rfl)]
  rfl

theorem find_sv_location_mutates_input :
    (find_sv_location_posvel [0, 0, 0] svC).map (fun o => o.1.x_sv_m)
      ≠ Except.ok svC.x_sv_m := by
  have hC : (0 : ℝ) < C := by norm_num [C]
  have hsqrt : Real.sqrt ((C - 0) ^ 2 + (0 - 0) ^ 2 + (0 - 0) ^ 2) = C := by
    rw [show ((C - 0) ^ 2 + (0 - 0) ^ 2 + (0 - 0) ^ 2 : ℝ) = C ^ 2 by ring]
    exact Real.sqrt_sq hC.le
  unfold find_sv_location_posvel
  rw [find_delxyz_range_cons]
  simp only [Except.bind, Except.map, posvel_pos_list, svC, List.zip_cons_cons,
    List.zip_nil_right, List.map_cons, List.map_nil, List.zipWith_cons_cons,
    List.zipWith_nil_right, hsqrt]
  intro h
  simp only [Except.ok.injEq, List.cons.injEq, and_true] at h
  rw [div_self (ne_of_gt hC), mul_one] at h
  have hpos : 0 < OMEGA_E_DOT * C := by norm_num [OMEGA_E_DOT, C]
  linarith

/-- C3 amended: on the code path where the caller supplies the satellite
states, the call leaves the satellite identifiers, epochs, z positions and all
velocity components of the caller-supplied table unchanged, but updates its x
and y ECEF position components in place by the Earth-rotation transit
correction x + OMEGA_E_DOT·x·t_corr (respectively y), with
t_corr = true_range / C. -/
theorem find_sv_location_mutation_profile (rx_ecef : List ℝ) (sv_posvel : SVPosvel)
    (out : SVPosvel × List (ℝ × ℝ × ℝ) × List ℝ)
    (h : find_sv_location_posvel rx_ecef sv_posvel = Except.ok out) :
    out.1.sv_id = sv_posvel.sv_id ∧
    out.1.times = sv_posvel.times ∧
    out.1.z_sv_m = sv_posvel.z_sv_m ∧
    out.1.vx_sv_mps = sv_posvel.vx_sv_mps ∧
    out.1.vy_sv_mps = sv_posvel.vy_sv_mps ∧
    out.1.vz_sv_mps = sv_posvel.vz_sv_mps ∧
    out.1.x_sv_m = List.zipWith (fun x t => x + OMEGA_E_DOT * x * t)
      sv_posvel.x_sv_m (out.2.2.map (· / C)) ∧
    out.1.y_sv_m = List.zipWith (fun y t => y + OMEGA_E_DOT * y * t)
      sv_posvel.y_sv_m (out.2.2.map (· / C)) := by
  cases hr : find_delxyz_range sv_posvel rx_ecef with
  | error msg =>
      rw [find_sv_location_posvel, hr] at h
      exact absurd h (by simp [Except.bind])
  | ok dr =>
      rw [find_sv_location_posvel, hr] at h
      simp only [Except.bind] at h
      cases Except.ok.inj h
      refine ⟨rfl, rfl, rfl, rfl, rfl, rfl, ?_, ?_⟩ <;>
        exact zipWith_add_zipWith_self _ _ _

theorem find_sv_location_mutation_profile_witness :
    (find_sv_location_posvel [0, 0, 0] sv0
        = Except.ok (sv0, [((0 : ℝ), (0 : ℝ), (0 : ℝ))], [(0 : ℝ)])) ∧
    (sv0.sv_id = sv0.sv_id ∧
     sv0.times = sv0.times ∧
     sv0.z_sv_m = sv0.z_sv_m ∧
     sv0.vx_sv_mps = sv0.vx_sv_mps ∧
     sv0.vy_sv_mps = sv0.vy_sv_mps ∧
     sv0.vz_sv_mps = sv0.vz_sv_mps ∧
     sv0.x_sv_m = List.zipWith (fun x t => x + OMEGA_E_DOT * x * t)
       sv0.x_sv_m ([(0 : ℝ)].map (· / C)) ∧
     sv0.y_sv_m = List.zipWith (fun y t => y + OMEGA_E_DOT * y * t)
       sv0.y_sv_m ([(0 : ℝ)].map (· / C))) := by
  have h : find_sv_location_posvel [0, 0, 0] sv0
      = Except.ok (sv0, [((0 : ℝ), (0 : ℝ), (0 : ℝ))], [(0 : ℝ)]) := by
    unfold find_sv_location_posvel
    rw [find_delxyz_range_cons]
    simp [Except.bind, posvel_pos_list, sv0]
  exact ⟨h, find_sv_location_mutation_profile [0, 0, 0] sv0 _ h⟩

/-- C4: the visibility filter fails (with an exception rather than a result)
whenever both the ephemeris and the satellite-state arguments are absent, and
whenever the receiver position does not have exactly three components. -/
theorem find_visible_svs_precondition_failure
    (el_az : List ℝ → List (ℝ × ℝ × ℝ) → List (ℝ × ℝ))
    (gps_millis : ℝ) (rx_ecef : List ℝ) (ephem : Option (List EphemRecord))
    (sv_posvel : Option SVPosvel) (el_mask : ℝ)
    (h : (ephem = none ∧ sv_posvel = none) ∨ rx_ecef.length ≠ 3) :
    ∃ msg, find_visible_svs el_az gps_millis rx_ecef ephem sv_posvel el_mask
      = Except.error msg := by
  rcases h with ⟨he, hp⟩ | hrx
  · subst he; subst hp
    exact ⟨_, rfl⟩
  · cases sv_posvel with
    | some pv =>
        cases ephem with
        | none => exact ⟨_, rfl⟩
        | some eph =>
            exact ⟨"cannot reshape rx_ecef into shape (3, 1)",
              by simp [find_visible_svs, Except.bind, hrx]⟩
    | none =>
        cases ephem with
        | none => exact ⟨_, rfl⟩
        | some eph =>
            cases hfs : find_sv_states (gps_millis - 1000 * T_TRANS) eph with
            | error msg =>
                exact ⟨msg, by simp [find_visible_svs, hfs, Except.bind]⟩
            | ok pv =>
                exact ⟨"cannot reshape rx_ecef into shape (3, 1)",
                  by simp [find_visible_svs, hfs, Except.bind, hrx]⟩

theorem find_visible_svs_precondition_failure_witness :
    ∃ msg, find_visible_svs (fun _ _ => []) 0 [] none none 5 = Except.error msg :=
  find_visible_svs_precondition_failure (fun _ _ => []) 0 [] none none 5
    (Or.inl ⟨rfl, rfl⟩)

/-- C2: when fewer than four satellites are present, or the geometry is
degenerate so that the Gram matrix of the design matrix is singular, every
entry of the 4x4 DOP matrix and every scalar of the result is the not-a-number
value, and no exception is raised (the embedding is total).  With fewer than
four satellites the Gram matrix is necessarily singular, since its rank is
bounded by the number of rows of the design matrix. -/
theorem calculate_dop_singular_nan (sats : List (ℝ × ℝ))
    (h : sats.length < 4 ∨
      ((calculate_enut_matrix sats).transpose * calculate_enut_matrix sats).det = 0) :
    calculate_dop sats = dop_nan := by
  have hdet : ((calculate_enut_matrix sats).transpose * calculate_enut_matrix sats).det
      = 0 := by
    rcases h with hlen | hdet
    · by_contra hne
      have hu : IsUnit ((calculate_enut_matrix sats).transpose * calculate_enut_matrix sats) :=
        (Matrix.isUnit_iff_isUnit_det _).mpr (isUnit_iff_ne_zero.mpr hne)
      have hrank4 :
          ((calculate_enut_matrix sats).transpose * calculate_enut_matrix sats).rank = 4 := by
        simpa using Matrix.rank_of_isUnit _ hu
      have hle :
          ((calculate_enut_matrix sats).transpose * calculate_enut_matrix sats).rank
            ≤ sats.length := by
        rw [Matrix.rank_transpose_mul_self]
        simpa using Matrix.rank_le_card_height (calculate_enut_matrix sats)
      omega
    · exact hdet
  simp only [calculate_dop]
  rw [if_pos hdet]

theorem calculate_dop_singular_nan_witness :
    calculate_dop [((20 : ℝ), (30 : ℝ)), ((30 : ℝ), (60 : ℝ))] = dop_nan :=
  calculate_dop_singular_nan [((20 : ℝ), (30 : ℝ)), ((30 : ℝ), (60 : ℝ))]
    (Or.inl (by norm_num))

/-- C8: the DOP-selection call returns the caller-supplied selection exactly
as supplied, for every combination of selection flags; the selection record is
never modified by get_dop. -/
theorem get_dop_preserves_selection (navdata : List (ℤ × ℝ × ℝ)) (which_dop : WhichDop) :
    (get_dop navdata which_dop).2 = which_dop :=
  rfl

/-- C10: for every well-shaped 2xN input of elevation and azimuth angles in
degrees, svs_from_el_az succeeds and every column of its output has Euclidean
norm exactly 20200000 meters; an input whose first dimension is not 2 fails
the shape assertion instead of returning. -/
theorem svs_from_el_az_norm_shape (elaz_deg : List (List ℝ)) :
    (∀ cols, svs_from_el_az elaz_deg = Except.ok cols →
        ∀ c ∈ cols, Real.sqrt (c.1 ^ 2 + c.2.1 ^ 2 + c.2.2 ^ 2) = 20200000) ∧
    (elaz_deg.length ≠ 2 → ∃ msg, svs_from_el_az elaz_deg = Except.error msg) := by
  constructor
  · intro cols hok c hc
    match elaz_deg, hok with
    | [el_deg, az_deg], hok =>
        simp only [svs_from_el_az, Except.ok.injEq] at hok
        subst hok
        rw [List.mem_map] at hc
        obtain ⟨p, _, rfl⟩ := hc
        have hsum :
            (20200000 * (Real.sin (deg2rad p.2) * Real.cos (deg2rad p.1))) ^ 2
              + (20200000 * (Real.cos (deg2rad p.2) * Real.cos (deg2rad p.1))) ^ 2
              + (20200000 * Real.sin (deg2rad p.1)) ^ 2 = 20200000 ^ 2 := by
          calc (20200000 * (Real.sin (deg2rad p.2) * Real.cos (deg2rad p.1))) ^ 2
                + (20200000 * (Real.cos (deg2rad p.2) * Real.cos (deg2rad p.1))) ^ 2
                + (20200000 * Real.sin (deg2rad p.1)) ^ 2
              = 20200000 ^ 2 * ((Real.sin (deg2rad p.2) ^ 2 + Real.cos (deg2rad p.2) ^ 2)
                  * Real.cos (deg2rad p.1) ^ 2 + Real.sin (deg2rad p.1) ^ 2) := by
                ring
            _ = 20200000 ^ 2 := by
                rw [Real.sin_sq_add_cos_sq, one_mul, Real.cos_sq_add_sin_sq, mul_one]
        rw [hsum]
        exact Real.sqrt_sq (by norm_num)
  · intro hlen
    match elaz_deg, hlen with
    | [], _ => exact ⟨_, rfl⟩
    | [_], _ => exact ⟨_, rfl⟩
    | _ :: _ :: _ :: _, _ => exact ⟨_, rfl⟩

theorem svs_from_el_az_norm_shape_witness :
    Real.sqrt ((20200000 * (Real.sin (deg2rad 0) * Real.cos (deg2rad 0))) ^ 2
      + (20200000 * (Real.cos (deg2rad 0) * Real.cos (deg2rad 0))) ^ 2
      + (20200000 * Real.sin (deg2rad 0)) ^ 2) = 20200000 := by
  have hok : svs_from_el_az [[0], [0]] = Except.ok
      [(20200000 * (Real.sin (deg2rad 0) * Real.cos (deg2rad 0)),
        20200000 * (Real.cos (deg2rad 0) * Real.cos (deg2rad 0)),
        20200000 * Real.sin (deg2rad 0))] := by
    simp only [svs_from_el_az, List.zip_cons_cons, List.zip_nil_right,
      List.map_cons, List.map_nil]
  exact (svs_from_el_az_norm_shape [[0], [0]]).1 _ hok
    (20200000 * (Real.sin (deg2rad 0) * Real.cos (deg2rad 0)),
     20200000 * (Real.cos (deg2rad 0) * Real.cos (deg2rad 0)),
     20200000 * Real.sin (deg2rad 0)) (List.mem_singleton_self _)
